import Mathlib

/-!
# Verification of the scrape-to-upload pipeline

Shallow embedding of `src/ebay_scrape_to_fileexchange.py` (the extraction and
reconciliation core) together with proofs of the specification's claims about
it.  Pure Python expressions are translated to Lean functions; Python `dict`
values are association lists with explicit lookup; the one fallible operation
of the reconciler (an unguarded `row["*Format"]` dictionary read) is modelled
with `Option`.
-/

/-! ## Python string and truthiness helpers

These model the exact Python primitives the script uses: `str.strip()`,
`str.startswith`, `str.replace`, slicing `s[:80]`, `x or y` on strings /
optional strings, and `float(...)` on plain decimal literals. -/

/-- `str.strip()` — remove whitespace from both ends. -/
def pyStrip (s : String) : String :=
  String.mk (((s.data.dropWhile Char.isWhitespace).reverse.dropWhile Char.isWhitespace).reverse)

/-- Character-list version of the check that `pre` begins the list `l`. -/
def chPref : List Char → List Char → Bool
  | [], _ => true
  | _ :: _, [] => false
  | a :: p, b :: l => (a == b) && chPref p l

/-- `s.startswith(pre)`. -/
def pyStartsWith (s pre : String) : Bool :=
  chPref pre.data s.data

/-- Fuel-driven worker for `str.replace`: scans left to right, replacing
non-overlapping occurrences of `pat` by `repl` (Python semantics). -/
def replAux (pat repl : List Char) : Nat → List Char → List Char
  | 0, l => l
  | _ + 1, [] => []
  | n + 1, a :: l =>
    if pat ≠ [] ∧ chPref pat (a :: l) then
      repl ++ replAux pat repl n ((a :: l).drop pat.length)
    else
      a :: replAux pat repl n l

/-- `s.replace(pat, repl)` — replace every occurrence, left to right. -/
def pyReplace (s pat repl : String) : String :=
  String.mk (replAux pat.data repl.data s.data.length s.data)

/-- `s[:n]` — the first `n` characters. -/
def pySlice (s : String) (n : Nat) : String :=
  String.mk (s.data.take n)

/-- `a or b` where both operands are strings (empty string is falsy). -/
def pyOrS (a b : String) : String :=
  if a = "" then b else a

/-- `a or b` where `a` is an optional string (`None` and `""` are falsy). -/
def pyOrOpt (a b : Option String) : Option String :=
  match a with
  | some s => if s = "" then b else some s
  | none => b

/-- `a or d` where `a` is an optional string and `d` a string default. -/
def pyOrOptD (a : Option String) (d : String) : String :=
  match a with
  | some s => if s = "" then d else s
  | none => d

/-- Split a character list at every occurrence of `c` (like `str.split(c)`). -/
def splitOnChar (c : Char) : List Char → List (List Char)
  | [] => [[]]
  | a :: l =>
    match splitOnChar c l, a == c with
    | r, true => [] :: r
    | [], false => [[a]]
    | x :: xs, false => (a :: x) :: xs

/-- Numeric value of a string of decimal digits. -/
def digitsToNat (l : List Char) : Nat :=
  l.foldl (fun n c => n * 10 + (c.toNat - 48)) 0

/-- `float(s)` for the plain decimal literals the seed files use: optional
surrounding whitespace, optional sign, digits with at most one point.
(Exponents, `inf`/`nan` and underscore separators of full Python `float`
are outside the inputs this pipeline sees and are not modelled.) -/
def parsePyFloat (s : String) : Option ℚ :=
  let t := (pyStrip s).data
  let signAndMag : Int × List Char :=
    match t with
    | '-' :: r => (-1, r)
    | '+' :: r => (1, r)
    | r => (1, r)
  match splitOnChar '.' signAndMag.2 with
  | [w] =>
    if w ≠ [] ∧ w.all Char.isDigit then
      some (mkRat (signAndMag.1 * digitsToNat w) 1)
    else none
  | [w, f] =>
    if (w ≠ [] ∨ f ≠ []) ∧ w.all Char.isDigit ∧ f.all Char.isDigit then
      some (mkRat (signAndMag.1 * (digitsToNat w * 10 ^ f.length + digitsToNat f)) (10 ^ f.length))
    else none
  | _ => none

/-- Two-digit rendering of `n % 100`. -/
def twoDigits (n : Nat) : String :=
  if n < 10 then "0" ++ toString n else toString n

/-- `f"{v:.2f}"` — fixed-point rendering with exactly two decimals.  The
rounded hundredths `⌊100 q + 1 / 2⌋` are computed directly on the reduced
numerator and denominator (ties at an exact decimal midpoint round up;
Python's float formatting only differs on such midpoints, which a binary
float cannot represent). -/
def formatF2 (q : ℚ) : String :=
  let n : ℤ := Int.fdiv (200 * q.num + (q.den : ℤ)) (2 * (q.den : ℤ))
  let m : Nat := n.natAbs
  (if n < 0 then "-" else "") ++ toString (m / 100) ++ "." ++ twoDigits (m % 100)

/-- Lookup in an association list (Python `dict` access / `dict.get`); for the
dictionaries built by this program a key is inserted by prepending, so the
first match is the most recent write. -/
def alookup {α : Type} : List (String × α) → String → Option α
  | [], _ => none
  | (k, v) :: l, key => if key = k then some v else alookup l key

/-- `dict.fromkeys` de-duplication worker: keep each element's first
occurrence, remembering what has been seen. -/
def dedupSeen (seen : List String) : List String → List String
  | [] => []
  | a :: l => if a ∈ seen then dedupSeen seen l else a :: dedupSeen (a :: seen) l

/-- `list(dict.fromkeys(l))` — first-seen-order de-duplication. -/
def dedupFirst (l : List String) : List String :=
  dedupSeen [] l

/-! ## Constants of the script (src lines 55-69) -/

/-- `CONDITION_MAP` (src lines 55-59). -/
def CONDITION_MAP : List (String × Nat) :=
  [("New", 1000), ("New (Other)", 1500), ("Used", 3000)]

/-- `DEFAULTS["Format"]` (src line 62). -/
def DEFAULTS_Format : String := "FixedPrice"

/-- `DEFAULTS["DurationFixedPrice"]` (src line 63). -/
def DEFAULTS_DurationFixedPrice : String := "GTC"

/-- `DEFAULTS["DurationAuction"]` (src line 64). -/
def DEFAULTS_DurationAuction : String := "Days_7"

/-- `DEFAULTS["Quantity"]` (src line 65) — the only non-string entry. -/
def DEFAULTS_Quantity : Nat := 1

/-- `DEFAULTS["Location"]` (src line 66). -/
def DEFAULTS_Location : String := ""

/-- `DEFAULTS["ShippingType"]` (src line 67). -/
def DEFAULTS_ShippingType : String := "Flat"

/-- `DEFAULTS["PostagePaidBy"]` (src line 68). -/
def DEFAULTS_PostagePaidBy : String := "Buyer"

/-! ## Row reconciler: `build_output_row` (src lines 273-373)

A seed row is a mapping from column name to string value (one row of the
seed CSV, read with `dtype=str` and `fillna("")`). -/

/-- One seed row: column name to string value. -/
def Seed : Type := List (String × String)

/-- `seed.get(k, d)`. -/
def sgetD (seed : Seed) (k d : String) : String :=
  (alookup seed k).getD d

/-- `seed.get(k)` (no default: absent gives `None`). -/
def sget (seed : Seed) (k : String) : Option String :=
  alookup seed k

/-- `row = {h: "" for h in headers}` (src line 282).  The row dictionary is
modelled as a partial map; `none` means the key is absent (a read raises
`KeyError`). -/
def initRow (headers : List String) : String → Option String :=
  fun h => if h ∈ headers then some "" else none

/-- `row[k] = v` — dictionary assignment (adds the key if absent). -/
def rset (r : String → Option String) (k v : String) : String → Option String :=
  fun h => if h = k then some v else r h

/-- Action marker (src lines 285-287): first header beginning `"*Action("`
is set to `"Add"`. -/
def actionStep (headers : List String) (r : String → Option String) : String → Option String :=
  match headers.find? (fun h => pyStartsWith h "*Action(") with
  | some a => rset r a "Add"
  | none => r

/-- `if k in headers: row[k] = v` — the guard used by almost every
resolution of `build_output_row`. -/
def setIfMem (headers : List String) (k v : String) (r : String → Option String) :
    String → Option String :=
  if k ∈ headers then rset r k v else r

/-- Resolved condition override (src line 305):
`seed.get("Condition","").strip() or seed.get("ConditionOverride","").strip()`. -/
def cond_override (seed : Seed) : String :=
  pyOrS (pyStrip (sgetD seed "Condition" "")) (pyStrip (sgetD seed "ConditionOverride" ""))

/-- Condition id (src lines 306-309): map through `CONDITION_MAP`,
defaulting to `3000`. -/
def condId (seed : Seed) : Nat :=
  match alookup CONDITION_MAP (cond_override seed) with
  | some n => n
  | none => 3000

/-- Format resolution (src line 319): `seed.get("FormatOverride", DEFAULTS["Format"])`. -/
def fmtResolved (seed : Seed) : String :=
  sgetD seed "FormatOverride" DEFAULTS_Format

/-- Steps up to and including the `*Format` write (src lines 282-319). -/
def preFormatRow (headers : List String) (seed : Seed)
    (scraped_title scraped_desc_text category_id : String) : String → Option String :=
  setIfMem headers "*Format" (fmtResolved seed)
    (setIfMem headers "*Description" scraped_desc_text
      (setIfMem headers "*ConditionID" (toString (condId seed))
        (setIfMem headers "Subtitle" ""
          (setIfMem headers "*Title" scraped_title
            (setIfMem headers "*Category" (pyOrS category_id "")
              (rset (actionStep headers (initRow headers))
                "CustomLabel" (sgetD seed "CustomLabel" "")))))))

/-- `*Duration` resolution (src lines 320-324).  The source reads
`row["*Format"]` without guarding on the `*Format` column being in the
schema: when the read misses (`KeyError`) the whole build fails, which the
embedding records as `none`. -/
def durStep (headers : List String) (seed : Seed) (r : String → Option String) :
    Option (String → Option String) :=
  if "*Duration" ∈ headers then
    match r "*Format" with
    | some f =>
      some (rset r "*Duration"
        (if f = "FixedPrice" then DEFAULTS_DurationFixedPrice
         else sgetD seed "DurationOverride" DEFAULTS_DurationAuction))
    | none => none
  else some r

/-- `normalize_price` (src lines 264-270). -/
def normalize_price (val : Option String) (scraped : Option ℚ) : Option ℚ :=
  match val with
  | some s =>
    if s = "" then scraped
    else
      match parsePyFloat s with
      | some q => some q
      | none => scraped
  | none => scraped

/-- Seed price selection (src line 327): `seed.get("Price") or seed.get("PriceOverride")`. -/
def selPrice (seed : Seed) : Option String :=
  pyOrOpt (sget seed "Price") (sget seed "PriceOverride")

/-- `*StartPrice` write (src lines 328-329): only when the column exists and
the resolved price is not `None`; formatted `f"{price_val:.2f}"`. -/
def priceStep (headers : List String) (pv : Option ℚ) (r : String → Option String) :
    String → Option String :=
  match pv with
  | some q => if "*StartPrice" ∈ headers then rset r "*StartPrice" (formatF2 q) else r
  | none => r

/-- Quantity resolution (src line 331):
`seed.get("Quantity") or seed.get("QuantityOverride") or str(DEFAULTS["Quantity"])`. -/
def qtyResolved (seed : Seed) : String :=
  pyOrOptD (pyOrOpt (sget seed "Quantity") (sget seed "QuantityOverride"))
    (toString DEFAULTS_Quantity)

/-- Picture resolution (src line 335):
`seed.get("PhotoURL","").strip() or (images[0] if images else "")`. -/
def pictureResolved (seed : Seed) (images : List String) : String :=
  pyOrS (pyStrip (sgetD seed "PhotoURL" "")) (images.headD "")

/-- Shipping type resolution (src line 340). -/
def shipTypeResolved (seed : Seed) : String :=
  pyOrS (pyOrS (pyStrip (sgetD seed "ShippingType" ""))
      (pyStrip (sgetD seed "ShippingTypeOverride" "")))
    DEFAULTS_ShippingType

/-- Location resolution (src line 344):
`seed.get("LocationOverride","") or DEFAULTS["Location"]`. -/
def locResolved (seed : Seed) : String :=
  pyOrS (sgetD seed "LocationOverride" "") DEFAULTS_Location

/-- Flat-shipping branch (src lines 345-349). -/
def flatStep (headers : List String) (seed : Seed) (ship : String)
    (r : String → Option String) : String → Option String :=
  if ship = "Flat" then
    setIfMem headers "ShippingService-1:Cost"
      (pyOrS (sgetD seed "FlatCost" "") (sgetD seed "ShippingService1_Cost" ""))
      (setIfMem headers "ShippingService-1:Option"
        (pyOrS (sgetD seed "FlatService" "") (sgetD seed "ShippingService1_Option" "")) r)
  else r

/-- Price through payer steps (src lines 326-354), applied after the
duration step. -/
def shipChain (headers : List String) (seed : Seed) (price : Option ℚ)
    (images : List String) (r : String → Option String) : String → Option String :=
  setIfMem headers "ShippingCostPaidByOption" (sgetD seed "PostagePaidBy" "Buyer")
    (setIfMem headers "*ReturnsAcceptedOption" "ReturnsAccepted"
      (flatStep headers seed (shipTypeResolved seed)
        (setIfMem headers "*Location" (locResolved seed)
          (setIfMem headers "ShippingType" (shipTypeResolved seed)
            (setIfMem headers "PictureURL" (pictureResolved seed images)
              (setIfMem headers "*Quantity" (qtyResolved seed)
                (priceStep headers (normalize_price (selPrice seed) price) r)))))))

/-- `specifics_map` (src lines 357-362): the four fixed grading columns. -/
def specifics_map (seed : Seed) : List (String × String) :=
  [("C:Card Condition", sgetD seed "CardCondition" ""),
   ("CD:Professional Grader - (ID: 27501)", sgetD seed "ProfessionalGrader" ""),
   ("CD:Grade - (ID: 27502)", sgetD seed "Grade" ""),
   ("CDA:Certification Number - (ID: 27503)", sgetD seed "CertNumber" "")]

/-- Fixed item-specifics loop (src lines 363-365): write each mapped seed
value if the column exists and the value is non-empty. -/
def smStep (headers : List String) (seed : Seed) (r : String → Option String) :
    String → Option String :=
  (specifics_map seed).foldl
    (fun r kv => if kv.1 ∈ headers ∧ kv.2 ≠ "" then rset r kv.1 kv.2 else r) r

/-- Body of the scraped-specifics loop (src lines 367-371) for one header. -/
def cstepF (sp : List (String × String)) (r : String → Option String) (h : String) :
    String → Option String :=
  if pyStartsWith h "C:" then
    match alookup sp (pyStrip (pyReplace h "C:" "")) with
    | some v => if v ≠ "" then rset r h v else r
    | none => r
  else r

/-- Scraped-specifics loop (src lines 367-371): for every `C:`-column, fill
from the scraped specifics under the column's suffix when non-empty. -/
def cStep (headers : List String) (sp : List (String × String))
    (r : String → Option String) : String → Option String :=
  headers.foldl (cstepF sp) r

/-- Steps after the duration step (src lines 326-371). -/
def postDurRow (headers : List String) (seed : Seed) (price : Option ℚ)
    (images : List String) (sp : List (String × String))
    (r : String → Option String) : String → Option String :=
  cStep headers sp (smStep headers seed (shipChain headers seed price images r))

/-- The full row dictionary of `build_output_row` (src lines 273-371);
`none` when the unguarded `row["*Format"]` read raises. -/
def buildRowFun (headers : List String) (seed : Seed)
    (scraped_title scraped_desc_text : String) (price : Option ℚ)
    (category_id condition_text : String) (images : List String)
    (sp : List (String × String)) : Option (String → Option String) :=
  match durStep headers seed
      (preFormatRow headers seed scraped_title scraped_desc_text category_id) with
  | some r => some (postDurRow headers seed price images sp r)
  | none => none

/-- `build_output_row` (src lines 273-373): the positional output row
`[row.get(h, "") for h in headers]`, or `none` when the build raises. -/
def build_output_row (headers : List String) (seed : Seed)
    (scraped_title scraped_desc_text : String) (price : Option ℚ)
    (category_id condition_text : String) (images : List String)
    (sp : List (String × String)) : Option (List String) :=
  (buildRowFun headers seed scraped_title scraped_desc_text price category_id
      condition_text images sp).map
    (fun r => headers.map (fun h => (r h).getD ""))

/-! ## Structured extractor: `scrape_ebay_listing` (src lines 124-238)

BeautifulSoup parsing cannot be embedded, so the parsed page is abstracted
into an `HtmlDoc`: the JSON-LD script blocks as parsed JSON values (`none`
for a block `json.loads` rejects), and, for each landmark-based fallback,
the text the corresponding selector chain produces (empty / `none` when the
landmark is absent).  Everything the script computes *from* these lookups is
embedded faithfully.  The optional Selenium branch (src lines 195-220,
`use_selenium=False` by default) is not modelled. -/

/-- Parsed JSON values, as produced by `json.loads`. -/
inductive Json : Type where
  | null : Json
  | bool (b : Bool) : Json
  | num (q : ℚ) : Json
  | str (s : String) : Json
  | arr (elems : List Json) : Json
  | obj (fields : List (String × Json)) : Json

/-- Python truthiness of a JSON value. -/
def pyTruthy : Json → Bool
  | .null => false
  | .bool b => b
  | .num q => q ≠ 0
  | .str s => s ≠ ""
  | .arr l => !l.isEmpty
  | .obj l => !l.isEmpty

/-- `str(v)` for a JSON value.  Exact for strings — the only case the
script's breadcrumb `@id` and metadata fields take on real pages; the other
constructors get a canonical placeholder rendering (no theorem relies on
them). -/
def pyStr : Json → String
  | .str s => s
  | .num q => toString q.num
  | .bool b => if b then "True" else "False"
  | .null => "None"
  | .arr _ => "<list>"
  | .obj _ => "<dict>"

/-- `float(v)` applied to a JSON value inside `try` (src lines 142-145):
numbers pass through, strings are parsed, booleans coerce, anything else
raises (and the caller leaves the price unset). -/
def pyFloat : Json → Option ℚ
  | .num q => some q
  | .str s => parsePyFloat s
  | .bool b => some (if b then mkRat 1 1 else mkRat 0 1)
  | _ => none

/-- Field access on a parsed JSON object (`json.loads` keeps the last
duplicate key, so objects are assumed key-unique). -/
def jget (fields : List (String × Json)) (k : String) : Option Json :=
  alookup fields k

/-- `parse_json_ld` (src lines 100-113): collect type-tagged JSON-LD
entries into a dictionary keyed by their `@type`; a later block of the same
type overwrites an earlier one (modelled by prepending, with first-match
lookup).  For a single-object block any truthy `@type` is stored; a truthy
non-string `@type` would be stored under a key the script never reads, so
it is skipped here. -/
def parse_json_ld (blocks : List (Option Json)) : List (String × List (String × Json)) :=
  blocks.foldl
    (fun data b =>
      match b with
      | none => data
      | some (.arr entries) =>
        entries.foldl
          (fun d e =>
            match e with
            | .obj fields =>
              match jget fields "@type" with
              | some (.str t) =>
                if t = "Product" ∨ t = "Offer" ∨ t = "BreadcrumbList" then (t, fields) :: d
                else d
              | _ => d
            | _ => d)
          data
      | some (.obj fields) =>
        match jget fields "@type" with
        | some (.str t) => if pyTruthy (.str t) then (t, fields) :: data else data
        | _ => data
      | some _ => data)
    []

/-- `extract_text` (src lines 116-121) over the oracle texts of the selector
list: the first selector whose element exists with non-empty text wins. -/
def extract_text (cands : List String) : String :=
  match cands.find? (fun s => !(s == "")) with
  | some s => s
  | none => ""

/-- The abstracted parsed page. -/
structure HtmlDoc : Type where
  jsonLdBlocks : List (Option Json)
  titleCandidates : List String
  conditionLandmark : String
  descCandidates : List (Option String)
  specificsPairs : List (String × Option String)

/-- Image collection from one metadata key (src lines 171-176): a list
keeps its `http`-initial strings, a single `http`-initial string is kept,
anything else contributes nothing. -/
def imgsFromKey (product : List (String × Json)) (k : String) : List String :=
  match jget product k with
  | some (.arr l) =>
    l.filterMap
      (fun v =>
        match v with
        | .str s => if pyStartsWith s "http" then some s else none
        | _ => none)
  | some (.str s) => if pyStartsWith s "http" then [s] else []
  | _ => []

/-- The image list before de-duplication (src lines 170-176). -/
def rawImages (product : List (String × Json)) : List String :=
  imgsFromKey product "image" ++ imgsFromKey product "images"

/-- `result.images = list(dict.fromkeys(images))` (src line 177). -/
def collectImages (product : List (String × Json)) : List String :=
  dedupFirst (rawImages product)

/-- Remove `:` characters from both ends (`key.strip(":")`, src line 230). -/
def stripColons (s : String) : String :=
  String.mk (((s.data.dropWhile (· = ':')).reverse.dropWhile (· = ':')).reverse)

/-- Item-specifics dictionary build (src lines 225-236): each label with a
found value element contributes `key.strip(":") ↦ value` when both are
non-empty; a repeated label overwrites (prepend + first-match lookup). -/
def buildSpecifics (pairs : List (String × Option String)) : List (String × String) :=
  pairs.foldl
    (fun d p =>
      match p.2 with
      | some vtxt =>
        if stripColons p.1 ≠ "" ∧ vtxt ≠ "" then (stripColons p.1, vtxt) :: d else d
      | none => d)
    []

/-- `ScrapeResult` (src lines 71-79): every field carries the dataclass
default. -/
structure ScrapeResult : Type where
  title : String := ""
  description_html : String := ""
  price : Option ℚ := none
  category_id : String := ""
  condition_text : String := ""
  images : List String := []
  item_specifics : List (String × String) := []

/-- Category derivation from the breadcrumb list (src lines 148-154): the
trailing `/`-segment of the last element's `item.@id`, with every failure
of the chain (`IndexError`, missing structure, non-dict values) caught and
yielding the empty string. -/
def categoryFromLd (ld : List (String × List (String × Json))) : String :=
  match alookup ld "BreadcrumbList" with
  | none => ""
  | some b =>
    if b.isEmpty then ""
    else
      match jget b "itemListElement" with
      | none => ""
      | some (.arr l) =>
        match l.getLast? with
        | some (.obj lastFields) =>
          match (jget lastFields "item").getD (.obj []) with
          | .obj itemFields =>
            match splitOnChar '/' (pyStr ((jget itemFields "@id").getD (.str ""))).data with
            | [] => ""
            | seg :: segs => String.mk ((seg :: segs).getLast (by simp))
          | _ => ""
        | _ => ""
      | some _ => ""

/-- `scrape_ebay_listing` (src lines 124-238) over the abstracted page: a
total function — every fallback chain ends in an explicit default. -/
def scrape_ebay_listing (doc : HtmlDoc) : ScrapeResult :=
  let ld := parse_json_ld doc.jsonLdBlocks
  let product := (alookup ld "Product").getD []
  let offer := (alookup ld "Offer").getD []
  let title :=
    match jget product "name" with
    | some v => if pyTruthy v then pyStr v else extract_text doc.titleCandidates
    | none => extract_text doc.titleCandidates
  let price :=
    match jget offer "price" with
    | some v => if pyTruthy v then pyFloat v else none
    | none => none
  let condition_text :=
    if doc.conditionLandmark ≠ "" then doc.conditionLandmark
    else
      match jget product "itemCondition" with
      | some v => pyStr v
      | none => ""
  let description :=
    match doc.descCandidates.findSome? id with
    | some d => d
    | none => ""
  { title := title
    description_html := description
    price := price
    category_id := categoryFromLd ld
    condition_text := condition_text
    images := collectImages product
    item_specifics := buildSpecifics doc.specificsPairs }

/-! ## Text rewriter: `openai_optimize` (src lines 241-261)

The external call is abstracted into an environment: whether the client
library imported, the `OPENAI_API_KEY` value, and the outcome of the
chat-completion call (`none` when it raises for any reason, otherwise the
message content). -/

/-- Environment of one rewriting call. -/
structure RewriteEnv : Type where
  hasLib : Bool
  apiKey : String
  response : Option String

/-- `openai_optimize` (src lines 241-261). -/
def openai_optimize (env : RewriteEnv) (text : String) (is_title : Bool) : String :=
  if env.hasLib = false then text
  else if env.apiKey = "" then text
  else
    match env.response with
    | none => text
    | some content =>
      let out := pyStrip content
      if is_title then pySlice out 80 else out

/-- Per-row title toggle of the driver (src line 416):
`(seed.get("OptimizeTitle","Y") == "Y") and bool(args.optimize)`. -/
def do_title_opt (seed : Seed) (optimizeFlag : Bool) : Bool :=
  (sgetD seed "OptimizeTitle" "Y" == "Y") && optimizeFlag

/-- Driver title resolution (src line 419):
`openai_optimize(scraped.title, is_title=True) if do_title_opt else scraped.title`. -/
def resolveOptTitle (seed : Seed) (optimizeFlag : Bool) (env : RewriteEnv)
    (scrapedTitle : String) : String :=
  if do_title_opt seed optimizeFlag then openai_optimize env scrapedTitle true
  else scrapedTitle

/-! ## Helper lemmas about the reconciler steps -/

theorem rset_self (r : String → Option String) (k v : String) : rset r k v k = some v := by
  simp [rset]

theorem rset_ne (r : String → Option String) (k v h : String) (hne : h ≠ k) :
    rset r k v h = r h := by
  simp [rset, hne]

theorem initRow_mem (headers : List String) (h : String) (hm : h ∈ headers) :
    initRow headers h = some "" := by
  simp [initRow, hm]

theorem setIfMem_self (headers : List String) (k v : String) (r : String → Option String)
    (hm : k ∈ headers) : setIfMem headers k v r k = some v := by
  simp [setIfMem, hm, rset]

theorem setIfMem_ne (headers : List String) (k v : String) (r : String → Option String)
    (h : String) (hne : h ≠ k) : setIfMem headers k v r h = r h := by
  unfold setIfMem
  split
  · exact rset_ne _ _ _ _ hne
  · rfl

theorem actionStep_ne (headers : List String) (r : String → Option String) (h : String)
    (hh : pyStartsWith h "*Action(" = false) : actionStep headers r h = r h := by
  unfold actionStep
  cases hfind : headers.find? (fun x => pyStartsWith x "*Action(") with
  | none => rfl
  | some a =>
    have ha := List.find?_some hfind
    have ha2 : pyStartsWith a "*Action(" = true := ha
    refine rset_ne _ _ _ _ ?_
    intro he
    rw [he] at hh
    rw [hh] at ha2
    exact Bool.noConfusion ha2

theorem priceStep_ne (headers : List String) (pv : Option ℚ) (r : String → Option String)
    (h : String) (hne : h ≠ "*StartPrice") : priceStep headers pv r h = r h := by
  unfold priceStep
  cases pv with
  | none => rfl
  | some q =>
    split
    · exact rset_ne _ _ _ _ hne
    · rfl

theorem priceStep_self (headers : List String) (pv : Option ℚ) (r : String → Option String)
    (hm : "*StartPrice" ∈ headers) :
    priceStep headers pv r "*StartPrice" =
      match pv with
      | some q => some (formatF2 q)
      | none => r "*StartPrice" := by
  unfold priceStep
  cases pv with
  | none => rfl
  | some q =>
    show (if "*StartPrice" ∈ headers then rset r "*StartPrice" (formatF2 q) else r)
        "*StartPrice" = some (formatF2 q)
    rw [if_pos hm]
    exact rset_self _ _ _

theorem flatStep_ne (headers : List String) (seed : Seed) (ship : String)
    (r : String → Option String) (h : String)
    (h1 : h ≠ "ShippingService-1:Option") (h2 : h ≠ "ShippingService-1:Cost") :
    flatStep headers seed ship r h = r h := by
  unfold flatStep
  split
  · rw [setIfMem_ne _ _ _ _ _ h2, setIfMem_ne _ _ _ _ _ h1]
  · rfl

theorem condSet_ne (c : Prop) [Decidable c] (r : String → Option String) (k v h : String)
    (hne : h ≠ k) : (if c then rset r k v else r) h = r h := by
  split
  · exact rset_ne _ _ _ _ hne
  · rfl

theorem smStep_ne (headers : List String) (seed : Seed) (r : String → Option String)
    (h : String)
    (h1 : h ≠ "C:Card Condition")
    (h2 : h ≠ "CD:Professional Grader - (ID: 27501)")
    (h3 : h ≠ "CD:Grade - (ID: 27502)")
    (h4 : h ≠ "CDA:Certification Number - (ID: 27503)") :
    smStep headers seed r h = r h := by
  unfold smStep specifics_map
  simp only [List.foldl]
  rw [condSet_ne _ _ _ _ _ h4, condSet_ne _ _ _ _ _ h3, condSet_ne _ _ _ _ _ h2,
    condSet_ne _ _ _ _ _ h1]

theorem smStep_card (headers : List String) (seed : Seed) (r : String → Option String)
    (hm : "C:Card Condition" ∈ headers) (hv : sgetD seed "CardCondition" "" ≠ "") :
    smStep headers seed r "C:Card Condition" = some (sgetD seed "CardCondition" "") := by
  unfold smStep specifics_map
  simp only [List.foldl]
  rw [condSet_ne _ _ _ _ _ (by decide), condSet_ne _ _ _ _ _ (by decide),
    condSet_ne _ _ _ _ _ (by decide), if_pos ⟨hm, hv⟩]
  exact rset_self _ _ _

/-- The value the scraped-specifics loop would write into column `h`
(`none` when it writes nothing for that column). -/
def cWrite (sp : List (String × String)) (h : String) : Option String :=
  if pyStartsWith h "C:" then
    match alookup sp (pyStrip (pyReplace h "C:" "")) with
    | some v => if v ≠ "" then some v else none
    | none => none
  else none

theorem cstepF_at (sp : List (String × String)) (r : String → Option String) (a h : String) :
    cstepF sp r a h =
      if h = a then
        match cWrite sp a with
        | some v => some v
        | none => r h
      else r h := by
  unfold cstepF cWrite
  cases hs : pyStartsWith a "C:" with
  | false =>
    by_cases hha : h = a
    · subst hha
      simp [hs]
    · simp [hs, hha]
  | true =>
    cases hl : alookup sp (pyStrip (pyReplace a "C:" "")) with
    | none =>
      by_cases hha : h = a
      · subst hha
        simp [hs, hl]
      · simp [hs, hl, hha]
    | some v =>
      by_cases hv : v = ""
      · subst hv
        by_cases hha : h = a
        · subst hha
          simp [hs, hl]
        · simp [hs, hl, hha]
      · by_cases hha : h = a
        · subst hha
          simp [hs, hl, hv, rset]
        · simp [hs, hl, hv, rset, hha]

theorem cStep_at (headers : List String) (sp : List (String × String))
    (r : String → Option String) (h : String) :
    cStep headers sp r h =
      if h ∈ headers ∧ (cWrite sp h).isSome then cWrite sp h else r h := by
  induction headers generalizing r with
  | nil => simp [cStep]
  | cons a t ih =>
    show cStep t sp (cstepF sp r a) h = _
    rw [ih, cstepF_at]
    by_cases hw : (cWrite sp h).isSome
    · by_cases hmem : h ∈ t
      · simp [hmem, hw]
      · by_cases hha : h = a
        · subst hha
          obtain ⟨v, hv⟩ := Option.isSome_iff_exists.mp hw
          simp [hmem, hw, hv]
        · simp [hmem, hha, hw]
    · by_cases hha : h = a
      · subst hha
        have hw2 : cWrite sp h = none := Option.not_isSome_iff_eq_none.mp hw
        simp [hw, hw2]
      · simp [hha, hw]

theorem cStep_not_c (headers : List String) (sp : List (String × String))
    (r : String → Option String) (h : String) (hh : pyStartsWith h "C:" = false) :
    cStep headers sp r h = r h := by
  rw [cStep_at]
  simp [cWrite, hh]

theorem shipChain_ne (headers : List String) (seed : Seed) (price : Option ℚ)
    (images : List String) (r : String → Option String) (h : String)
    (hp : h ≠ "*StartPrice") (hq : h ≠ "*Quantity") (hpic : h ≠ "PictureURL")
    (hst : h ≠ "ShippingType") (hloc : h ≠ "*Location")
    (hso : h ≠ "ShippingService-1:Option") (hsc : h ≠ "ShippingService-1:Cost")
    (hra : h ≠ "*ReturnsAcceptedOption") (hpay : h ≠ "ShippingCostPaidByOption") :
    shipChain headers seed price images r h = r h := by
  unfold shipChain
  rw [setIfMem_ne _ _ _ _ _ hpay, setIfMem_ne _ _ _ _ _ hra,
    flatStep_ne _ _ _ _ _ hso hsc, setIfMem_ne _ _ _ _ _ hloc,
    setIfMem_ne _ _ _ _ _ hst, setIfMem_ne _ _ _ _ _ hpic,
    setIfMem_ne _ _ _ _ _ hq, priceStep_ne _ _ _ _ hp]

theorem postDur_pres (headers : List String) (seed : Seed) (price : Option ℚ)
    (images : List String) (sp : List (String × String)) (r : String → Option String)
    (h : String)
    (hC : pyStartsWith h "C:" = false)
    (h2 : h ≠ "CD:Professional Grader - (ID: 27501)")
    (h3 : h ≠ "CD:Grade - (ID: 27502)")
    (h4 : h ≠ "CDA:Certification Number - (ID: 27503)")
    (hp : h ≠ "*StartPrice") (hq : h ≠ "*Quantity") (hpic : h ≠ "PictureURL")
    (hst : h ≠ "ShippingType") (hloc : h ≠ "*Location")
    (hso : h ≠ "ShippingService-1:Option") (hsc : h ≠ "ShippingService-1:Cost")
    (hra : h ≠ "*ReturnsAcceptedOption") (hpay : h ≠ "ShippingCostPaidByOption") :
    postDurRow headers seed price images sp r h = r h := by
  have h1 : h ≠ "C:Card Condition" := by
    intro he
    rw [he] at hC
    exact Bool.noConfusion hC
  unfold postDurRow
  rw [cStep_not_c _ _ _ _ hC, smStep_ne _ _ _ _ h1 h2 h3 h4,
    shipChain_ne _ _ _ _ _ _ hp hq hpic hst hloc hso hsc hra hpay]

theorem preFormat_pres (headers : List String) (seed : Seed)
    (t d cat : String) (h : String)
    (hA : pyStartsWith h "*Action(" = false)
    (hcl : h ≠ "CustomLabel") (hcat : h ≠ "*Category") (hti : h ≠ "*Title")
    (hsub : h ≠ "Subtitle") (hcid : h ≠ "*ConditionID") (hdesc : h ≠ "*Description")
    (hfmt : h ≠ "*Format") :
    preFormatRow headers seed t d cat h = initRow headers h := by
  unfold preFormatRow
  rw [setIfMem_ne _ _ _ _ _ hfmt, setIfMem_ne _ _ _ _ _ hdesc,
    setIfMem_ne _ _ _ _ _ hcid, setIfMem_ne _ _ _ _ _ hsub,
    setIfMem_ne _ _ _ _ _ hti, setIfMem_ne _ _ _ _ _ hcat,
    rset_ne _ _ _ _ hcl, actionStep_ne _ _ _ hA]

theorem durStep_mem (headers : List String) (seed : Seed) (r : String → Option String)
    (f : String) (hd : "*Duration" ∈ headers) (hf : r "*Format" = some f) :
    durStep headers seed r =
      some (rset r "*Duration"
        (if f = "FixedPrice" then DEFAULTS_DurationFixedPrice
         else sgetD seed "DurationOverride" DEFAULTS_DurationAuction)) := by
  unfold durStep
  rw [if_pos hd, hf]

theorem durStep_nomem (headers : List String) (seed : Seed) (r : String → Option String)
    (hd : "*Duration" ∉ headers) : durStep headers seed r = some r := by
  unfold durStep
  rw [if_neg hd]

/-- Success and shape of the full build whenever the schema does not have
`*Duration` without `*Format`. -/
theorem buildRowFun_some (headers : List String) (seed : Seed)
    (t d : String) (p : Option ℚ) (cat ct : String) (imgs : List String)
    (sp : List (String × String))
    (hfd : "*Duration" ∈ headers → "*Format" ∈ headers) :
    ∃ r0,
      buildRowFun headers seed t d p cat ct imgs sp =
        some (postDurRow headers seed p imgs sp r0) ∧
      (∀ h, h ≠ "*Duration" → r0 h = preFormatRow headers seed t d cat h) ∧
      ("*Duration" ∈ headers →
        r0 "*Duration" =
          some (if fmtResolved seed = "FixedPrice" then DEFAULTS_DurationFixedPrice
                else sgetD seed "DurationOverride" DEFAULTS_DurationAuction)) := by
  by_cases hd : "*Duration" ∈ headers
  · have hfmem : "*Format" ∈ headers := hfd hd
    have hfval : preFormatRow headers seed t d cat "*Format" = some (fmtResolved seed) :=
      setIfMem_self _ _ _ _ hfmem
    refine ⟨rset (preFormatRow headers seed t d cat) "*Duration"
      (if fmtResolved seed = "FixedPrice" then DEFAULTS_DurationFixedPrice
       else sgetD seed "DurationOverride" DEFAULTS_DurationAuction), ?_, ?_, ?_⟩
    · unfold buildRowFun
      rw [durStep_mem headers seed _ (fmtResolved seed) hd hfval]
    · intro h hne
      exact rset_ne _ _ _ _ hne
    · intro _
      exact rset_self _ _ _
  · refine ⟨preFormatRow headers seed t d cat, ?_, ?_, ?_⟩
    · unfold buildRowFun
      rw [durStep_nomem headers seed _ hd]
    · intro h _
      rfl
    · intro hmem
      exact absurd hmem hd

/-! ## Helper lemmas about de-duplication and the extractor -/

theorem dedupSeen_mem (l : List String) :
    ∀ (seen : List String) (x : String), x ∈ dedupSeen seen l ↔ x ∈ l ∧ x ∉ seen := by
  induction l with
  | nil =>
    intro seen x
    simp [dedupSeen]
  | cons a t ih =>
    intro seen x
    unfold dedupSeen
    by_cases ha : a ∈ seen
    · rw [if_pos ha, ih]
      by_cases hxa : x = a
      · subst hxa
        simp [ha]
      · simp [List.mem_cons, hxa]
    · rw [if_neg ha]
      by_cases hxa : x = a
      · subst hxa
        simp [List.mem_cons, ha]
      · simp only [List.mem_cons, hxa, false_or, ih, List.mem_cons]

theorem dedupSeen_sublist (l : List String) :
    ∀ seen : List String, List.Sublist (dedupSeen seen l) l := by
  induction l with
  | nil =>
    intro seen
    exact List.Sublist.refl _
  | cons a t ih =>
    intro seen
    unfold dedupSeen
    by_cases ha : a ∈ seen
    · rw [if_pos ha]
      exact List.Sublist.cons a (ih seen)
    · rw [if_neg ha]
      exact List.Sublist.cons₂ a (ih (a :: seen))

theorem dedupSeen_nodup (l : List String) :
    ∀ seen : List String, (dedupSeen seen l).Nodup := by
  induction l with
  | nil =>
    intro seen
    simp [dedupSeen]
  | cons a t ih =>
    intro seen
    unfold dedupSeen
    by_cases ha : a ∈ seen
    · rw [if_pos ha]
      exact ih seen
    · rw [if_neg ha, List.nodup_cons]
      refine ⟨fun hmem => ?_, ih (a :: seen)⟩
      exact ((dedupSeen_mem t (a :: seen) a).mp hmem).2 (List.mem_cons_self a seen)

theorem dedupSeen_takeWhile (l : List String) (u : String) :
    ∀ seen : List String, u ∉ seen →
      dedupSeen seen (l.takeWhile (fun v => v != u)) =
        (dedupSeen seen l).takeWhile (fun v => v != u) := by
  induction l with
  | nil =>
    intro seen _
    simp [dedupSeen]
  | cons a t ih =>
    intro seen hu
    by_cases hau : a = u
    · subst hau
      rw [List.takeWhile_cons]
      simp only [bne_self_eq_false, if_false]
      unfold dedupSeen
      rw [if_neg (fun hm => hu hm), List.takeWhile_cons]
      simp [dedupSeen]
    · rw [List.takeWhile_cons]
      have hptrue : (a != u) = true := bne_iff_ne.mpr hau
      rw [hptrue]
      simp only [if_true]
      unfold dedupSeen
      by_cases ha : a ∈ seen
      · rw [if_pos ha, if_pos ha]
        exact ih seen hu
      · rw [if_neg ha, if_neg ha, List.takeWhile_cons, hptrue]
        simp only [if_true]
        rw [ih (a :: seen) (fun hm => (List.mem_cons.mp hm).elim (fun he => hau he.symm) hu)]

theorem imgsFromKey_http (product : List (String × Json)) (k : String) :
    ∀ v ∈ imgsFromKey product k, pyStartsWith v "http" = true := by
  intro v hv
  unfold imgsFromKey at hv
  cases hj : jget product k with
  | none =>
    rw [hj] at hv
    simp at hv
  | some j =>
    rw [hj] at hv
    cases j with
    | str s =>
      by_cases hss : pyStartsWith s "http"
      · simp only [hss, if_true, List.mem_singleton] at hv
        rw [hv]
        exact hss
      · simp [hss] at hv
    | arr l =>
      simp only [List.mem_filterMap] at hv
      rcases hv with ⟨j, _, hf⟩
      cases j with
      | str s =>
        by_cases hss : pyStartsWith s "http"
        · simp only [hss, if_true, Option.some.injEq] at hf
          rw [← hf]
          exact hss
        · simp [hss] at hf
      | null => simp at hf
      | bool b => simp at hf
      | num q => simp at hf
      | arr l2 => simp at hf
      | obj o => simp at hf
    | null => simp at hv
    | bool b => simp at hv
    | num q => simp at hv
    | obj o => simp at hv

theorem rawImages_http (product : List (String × Json)) :
    ∀ v ∈ rawImages product, pyStartsWith v "http" = true := by
  intro v hv
  rcases List.mem_append.mp hv with hv | hv
  · exact imgsFromKey_http product "image" v hv
  · exact imgsFromKey_http product "images" v hv

theorem parse_json_ld_all_none (blocks : List (Option Json))
    (hb : ∀ b ∈ blocks, b = none) : parse_json_ld blocks = [] := by
  induction blocks with
  | nil => rfl
  | cons b t ih =>
    have hb0 : b = none := hb b (List.mem_cons_self b t)
    subst hb0
    show parse_json_ld t = []
    exact ih (fun x hx => hb x (List.mem_cons_of_mem _ hx))

theorem find?_empty_none (l : List String) (he : ∀ s ∈ l, s = "") :
    l.find? (fun s => !(s == "")) = none := by
  induction l with
  | nil => rfl
  | cons a t ih =>
    have ha : a = "" := he a (List.mem_cons_self a t)
    subst ha
    rw [List.find?_cons]
    simp only [BEq.refl, Bool.not_true]
    exact ih (fun x hx => he x (List.mem_cons_of_mem _ hx))

theorem findSome?_all_none (l : List (Option String)) (hn : ∀ o ∈ l, o = none) :
    l.findSome? id = none := by
  induction l with
  | nil => rfl
  | cons a t ih =>
    have ha : a = none := hn a (List.mem_cons_self a t)
    subst ha
    rw [List.findSome?_cons]
    exact ih (fun x hx => hn x (List.mem_cons_of_mem _ hx))

/-! ## Claim theorems -/

/-- C1: the claim asserts that building the output row never fails for any
schema, seed row and scraped listing — in particular for every schema that
contains the `*Duration` column but not the `*Format` column.  On exactly
such a schema the source reads `row["*Format"]` (src line 321) from a row
dictionary that was never given that key, raising `KeyError`: evaluated at
the failing input `headers = ["*Duration"]`, the embedded build aborts
(`none`) instead of producing a row. -/
theorem c1_duration_without_format_fails :
    build_output_row ["*Duration"] [] "" "" none "" "" [] [] = none := by decide

/-- C6: on the concrete scenario — seed
`{URL: "http://x/1", Condition: "New", Quantity: "2"}`, scraped title
`"Widget"`, price `10.0`, images `["http://img/1.jpg"]`, and the seven-column
schema — the reconciler returns exactly
`["Add", "", "Widget", "1000", "10.00", "2", "http://img/1.jpg"]`. -/
theorem c6_concrete_scenario :
    build_output_row
      ["*Action(SiteID=...)", "CustomLabel", "*Title", "*ConditionID", "*StartPrice",
        "*Quantity", "PictureURL"]
      [("URL", "http://x/1"), ("Condition", "New"), ("Quantity", "2")]
      "Widget" "" (some 10) "" "" ["http://img/1.jpg"] [] =
      some ["Add", "", "Widget", "1000", "10.00", "2", "http://img/1.jpg"] := by decide

/-- C2 (counterexample): the claim says a value placed in a specifics column
from the seed row is never overwritten by a scraped value; but with schema
`["C:Card Condition"]`, seed `CardCondition = "Mint"` and scraped specifics
`{"Card Condition": "Poor"}`, the output row holds `"Poor"`, not the
seed-placed `"Mint"` — the scraped-specifics loop (src lines 367-371) runs
after the seed write (src lines 363-365) and overwrites it. -/
theorem c2_seed_value_overwritten_cex :
    build_output_row ["C:Card Condition"] [("CardCondition", "Mint")] "" "" none "" "" []
        [("Card Condition", "Poor")] = some ["Poor"] ∧
      ("Poor" : String) ≠ "Mint" := by decide

/-- C2 (amended): for every schema column with the `C:` naming convention the
reconciler fills it from the scraped item-specifics mapping under the
column's suffix whenever a non-empty scraped value exists there — and such a
scraped value overwrites any value placed from the seed row; the seed's
`CardCondition` value persists in `C:Card Condition` only when no non-empty
scraped value exists for `Card Condition`. -/
theorem c2_scraped_specifics_fill (headers : List String) (seed : Seed)
    (t d : String) (p : Option ℚ) (cat ct : String) (imgs : List String)
    (sp : List (String × String))
    (hfd : "*Duration" ∈ headers → "*Format" ∈ headers) :
    ∃ r, buildRowFun headers seed t d p cat ct imgs sp = some r ∧
      (∀ h, h ∈ headers → pyStartsWith h "C:" = true →
        ∀ v, alookup sp (pyStrip (pyReplace h "C:" "")) = some v → v ≠ "" →
          r h = some v) ∧
      ("C:Card Condition" ∈ headers →
        (alookup sp "Card Condition" = none ∨ alookup sp "Card Condition" = some "") →
        sgetD seed "CardCondition" "" ≠ "" →
        r "C:Card Condition" = some (sgetD seed "CardCondition" "")) := by
  obtain ⟨r0, hbuild, hpres, hdur⟩ := buildRowFun_some headers seed t d p cat ct imgs sp hfd
  refine ⟨_, hbuild, ?_, ?_⟩
  · intro h hmem hC v hl hv
    have hw : cWrite sp h = some v := by
      unfold cWrite
      simp [hC, hl, hv]
    unfold postDurRow
    rw [cStep_at, if_pos ⟨hmem, by rw [hw]; rfl⟩, hw]
  · intro hmem hl hv
    have hkey : pyStrip (pyReplace "C:Card Condition" "C:" "") = "Card Condition" := by decide
    have hw : cWrite sp "C:Card Condition" = none := by
      unfold cWrite
      rw [hkey]
      rcases hl with hl | hl <;> simp [hl]
    unfold postDurRow
    rw [cStep_at, if_neg (fun hand => by rw [hw] at hand; exact Bool.noConfusion hand.2)]
    exact smStep_card _ _ _ hmem hv

/-- C2 (witness for the amended theorem): concrete instance where the scraped
value `"Poor"` lands in `C:Card Condition` over the seed's `"Mint"`. -/
theorem c2_scraped_specifics_fill_witness :
    ∃ r, buildRowFun ["C:Card Condition"] [("CardCondition", "Mint")] "" "" none "" "" []
        [("Card Condition", "Poor")] = some r ∧
      r "C:Card Condition" = some "Poor" := by
  obtain ⟨r, hb, hfill, _⟩ :=
    c2_scraped_specifics_fill ["C:Card Condition"] [("CardCondition", "Mint")] "" "" none
      "" "" [] [("Card Condition", "Poor")] (by decide)
  exact ⟨r, hb, hfill "C:Card Condition" (by decide) (by decide) "Poor" (by decide)
    (by decide)⟩

/-- C3 (counterexample): the claim says a `FormatOverride` column that is
present in the seed but empty still yields the default `"FixedPrice"` (and
hence duration `"GTC"`); but `seed.get("FormatOverride", DEFAULTS["Format"])`
(src line 319) only falls back to the default when the key is absent, so a
present-but-empty override makes the Format column empty — not fixed-price —
and the Duration column falls to the auction default `"Days_7"`. -/
theorem c3_present_empty_override_cex :
    build_output_row ["*Format", "*Duration"] [("FormatOverride", "")] "" "" none "" "" [] [] =
        some ["", "Days_7"] ∧
      ("" : String) ≠ "FixedPrice" ∧ ("Days_7" : String) ≠ "GTC" := by decide

/-- C3 (amended): for every seed row and schema containing `*Format` and
`*Duration`: the Format column is the seed's `FormatOverride` value whenever
that column is present (even when empty), and the fixed default `"FixedPrice"`
only when it is absent; the Duration column is the constant `"GTC"` exactly
when the resolved format equals `"FixedPrice"`, and otherwise is the seed's
`DurationOverride` when present, else the auction default `"Days_7"`. -/
theorem c3_format_duration_resolution (headers : List String) (seed : Seed)
    (t d : String) (p : Option ℚ) (cat ct : String) (imgs : List String)
    (sp : List (String × String))
    (hf : "*Format" ∈ headers) (hdm : "*Duration" ∈ headers) :
    ∃ r, buildRowFun headers seed t d p cat ct imgs sp = some r ∧
      r "*Format" = some (fmtResolved seed) ∧
      (∀ v, alookup seed "FormatOverride" = some v → fmtResolved seed = v) ∧
      (alookup seed "FormatOverride" = none → fmtResolved seed = DEFAULTS_Format) ∧
      DEFAULTS_Format = "FixedPrice" ∧
      r "*Duration" =
        some (if fmtResolved seed = "FixedPrice" then DEFAULTS_DurationFixedPrice
              else sgetD seed "DurationOverride" DEFAULTS_DurationAuction) ∧
      (∀ v, alookup seed "DurationOverride" = some v →
        sgetD seed "DurationOverride" DEFAULTS_DurationAuction = v) ∧
      (alookup seed "DurationOverride" = none →
        sgetD seed "DurationOverride" DEFAULTS_DurationAuction = DEFAULTS_DurationAuction) ∧
      DEFAULTS_DurationFixedPrice = "GTC" ∧ DEFAULTS_DurationAuction = "Days_7" := by
  obtain ⟨r0, hbuild, hpres, hdur⟩ := buildRowFun_some headers seed t d p cat ct imgs sp
    (fun _ => hf)
  refine ⟨_, hbuild, ?_, ?_, ?_, rfl, ?_, ?_, ?_, rfl, rfl⟩
  · rw [postDur_pres _ _ _ _ _ _ _ (by decide) (by decide) (by decide) (by decide) (by decide)
      (by decide) (by decide) (by decide) (by decide) (by decide) (by decide) (by decide)
      (by decide)]
    rw [hpres "*Format" (by decide)]
    exact setIfMem_self _ _ _ _ hf
  · intro v hv
    unfold fmtResolved sgetD
    rw [hv]
    rfl
  · intro hv
    unfold fmtResolved sgetD
    rw [hv]
    rfl
  · rw [postDur_pres _ _ _ _ _ _ _ (by decide) (by decide) (by decide) (by decide) (by decide)
      (by decide) (by decide) (by decide) (by decide) (by decide) (by decide) (by decide)
      (by decide)]
    exact hdur hdm
  · intro v hv
    unfold sgetD
    rw [hv]
    rfl
  · intro hv
    unfold sgetD
    rw [hv]
    rfl

/-- C3 (witness for the amended theorem): concrete schema
`["*Format", "*Duration"]` with an empty seed. -/
theorem c3_format_duration_resolution_witness :
    ∃ r, buildRowFun ["*Format", "*Duration"] [] "" "" none "" "" [] [] = some r ∧
      r "*Format" = some (fmtResolved []) ∧
      (∀ v, alookup ([] : Seed) "FormatOverride" = some v → fmtResolved [] = v) ∧
      (alookup ([] : Seed) "FormatOverride" = none → fmtResolved [] = DEFAULTS_Format) ∧
      DEFAULTS_Format = "FixedPrice" ∧
      r "*Duration" =
        some (if fmtResolved [] = "FixedPrice" then DEFAULTS_DurationFixedPrice
              else sgetD [] "DurationOverride" DEFAULTS_DurationAuction) ∧
      (∀ v, alookup ([] : Seed) "DurationOverride" = some v →
        sgetD [] "DurationOverride" DEFAULTS_DurationAuction = v) ∧
      (alookup ([] : Seed) "DurationOverride" = none →
        sgetD [] "DurationOverride" DEFAULTS_DurationAuction = DEFAULTS_DurationAuction) ∧
      DEFAULTS_DurationFixedPrice = "GTC" ∧ DEFAULTS_DurationAuction = "Days_7" :=
  c3_format_duration_resolution ["*Format", "*Duration"] [] "" "" none "" "" [] []
    (by decide) (by decide)

/-- C4: for every seed row and schema containing `*ConditionID` (and on
which the build succeeds), the reconciler writes the string of the id
obtained by mapping the resolved condition override through `CONDITION_MAP`:
`"New" ↦ 1000`, `"New (Other)" ↦ 1500`, `"Used" ↦ 3000`, and any
unrecognized or empty value (no entry in the table) gives `3000`. -/
theorem c4_condition_mapping (headers : List String) (seed : Seed)
    (t d : String) (p : Option ℚ) (cat ct : String) (imgs : List String)
    (sp : List (String × String))
    (hc : "*ConditionID" ∈ headers)
    (hfd : "*Duration" ∈ headers → "*Format" ∈ headers) :
    ∃ r, buildRowFun headers seed t d p cat ct imgs sp = some r ∧
      r "*ConditionID" = some (toString (condId seed)) ∧
      (cond_override seed = "New" → condId seed = 1000) ∧
      (cond_override seed = "New (Other)" → condId seed = 1500) ∧
      (cond_override seed = "Used" → condId seed = 3000) ∧
      (cond_override seed = "" → condId seed = 3000) ∧
      (alookup CONDITION_MAP (cond_override seed) = none → condId seed = 3000) := by
  obtain ⟨r0, hbuild, hpres, _⟩ := buildRowFun_some headers seed t d p cat ct imgs sp hfd
  refine ⟨_, hbuild, ?_, ?_, ?_, ?_, ?_, ?_⟩
  · rw [postDur_pres _ _ _ _ _ _ _ (by decide) (by decide) (by decide) (by decide) (by decide)
      (by decide) (by decide) (by decide) (by decide) (by decide) (by decide) (by decide)
      (by decide)]
    rw [hpres "*ConditionID" (by decide)]
    unfold preFormatRow
    rw [setIfMem_ne _ _ _ _ _ (by decide), setIfMem_ne _ _ _ _ _ (by decide)]
    exact setIfMem_self _ _ _ _ hc
  · intro hx
    unfold condId
    rw [hx]
    rfl
  · intro hx
    unfold condId
    rw [hx]
    rfl
  · intro hx
    unfold condId
    rw [hx]
    rfl
  · intro hx
    unfold condId
    rw [hx]
    rfl
  · intro hx
    unfold condId
    rw [hx]

/-- C4 (witness): schema `["*ConditionID"]` with seed condition `"New"`. -/
theorem c4_condition_mapping_witness :
    ∃ r, buildRowFun ["*ConditionID"] [("Condition", "New")] "" "" none "" "" [] [] = some r ∧
      r "*ConditionID" = some (toString (condId [("Condition", "New")])) ∧
      (cond_override [("Condition", "New")] = "New" → condId [("Condition", "New")] = 1000) ∧
      (cond_override [("Condition", "New")] = "New (Other)" →
        condId [("Condition", "New")] = 1500) ∧
      (cond_override [("Condition", "New")] = "Used" → condId [("Condition", "New")] = 3000) ∧
      (cond_override [("Condition", "New")] = "" → condId [("Condition", "New")] = 3000) ∧
      (alookup CONDITION_MAP (cond_override [("Condition", "New")]) = none →
        condId [("Condition", "New")] = 3000) :=
  c4_condition_mapping ["*ConditionID"] [("Condition", "New")] "" "" none "" "" [] []
    (by decide) (by decide)

/-- C5: for every seed row, scraped price and schema containing
`*StartPrice` (on which the build succeeds): the start-price cell is the
two-decimal rendering of the resolved price — the seed's price value when it
parses as a number, else the scraped price — and is left empty when neither
is available.  (`parsePyFloat` is the embedding of `float(...)` on the
decimal literals the seeds use, so "numeric-parseable" means it succeeds.) -/
theorem c5_start_price_resolution (headers : List String) (seed : Seed)
    (t d : String) (price : Option ℚ) (cat ct : String) (imgs : List String)
    (sp : List (String × String))
    (hsp : "*StartPrice" ∈ headers)
    (hfd : "*Duration" ∈ headers → "*Format" ∈ headers) :
    ∃ r, buildRowFun headers seed t d price cat ct imgs sp = some r ∧
      r "*StartPrice" =
        some ((normalize_price (selPrice seed) price).elim "" formatF2) ∧
      (∀ s q, selPrice seed = some s → parsePyFloat s = some q →
        normalize_price (selPrice seed) price = some q) ∧
      (∀ s, selPrice seed = some s → parsePyFloat s = none →
        normalize_price (selPrice seed) price = price) ∧
      (selPrice seed = none → normalize_price (selPrice seed) price = price) := by
  obtain ⟨r0, hbuild, hpres, _⟩ := buildRowFun_some headers seed t d price cat ct imgs sp hfd
  have hbase : r0 "*StartPrice" = some "" := by
    rw [hpres "*StartPrice" (by decide)]
    rw [preFormat_pres _ _ _ _ _ _ (by decide) (by decide) (by decide) (by decide) (by decide)
      (by decide) (by decide) (by decide)]
    exact initRow_mem _ _ hsp
  refine ⟨_, hbuild, ?_, ?_, ?_, ?_⟩
  · unfold postDurRow
    rw [cStep_not_c _ _ _ _ (by decide),
      smStep_ne _ _ _ _ (by decide) (by decide) (by decide) (by decide)]
    unfold shipChain
    rw [setIfMem_ne _ _ _ _ _ (by decide), setIfMem_ne _ _ _ _ _ (by decide),
      flatStep_ne _ _ _ _ _ (by decide) (by decide), setIfMem_ne _ _ _ _ _ (by decide),
      setIfMem_ne _ _ _ _ _ (by decide), setIfMem_ne _ _ _ _ _ (by decide),
      setIfMem_ne _ _ _ _ _ (by decide), priceStep_self _ _ _ hsp]
    cases hnp : normalize_price (selPrice seed) price with
    | some q => rfl
    | none =>
      rw [hbase]
      rfl
  · intro s q hs hq
    have hne : s ≠ "" := by
      intro he
      rw [he] at hq
      rw [show parsePyFloat "" = none from rfl] at hq
      exact Option.noConfusion hq
    unfold normalize_price
    rw [hs]
    show (if s = "" then price
          else
            match parsePyFloat s with
            | some q2 => some q2
            | none => price) = some q
    rw [if_neg hne, hq]
  · intro s hs hq
    unfold normalize_price
    rw [hs]
    show (if s = "" then price
          else
            match parsePyFloat s with
            | some q2 => some q2
            | none => price) = price
    by_cases hne : s = ""
    · rw [if_pos hne]
    · rw [if_neg hne, hq]
  · intro hs
    unfold normalize_price
    rw [hs]

/-- C5 (witness): seed price `"19.99"` beats scraped `25`; the cell renders
with exactly two decimals. -/
theorem c5_start_price_resolution_witness :
    (∃ r, buildRowFun ["*StartPrice"] [("Price", "19.99")] "" "" (some 25) "" "" [] [] =
        some r ∧
      r "*StartPrice" =
        some ((normalize_price (selPrice [("Price", "19.99")]) (some 25)).elim "" formatF2) ∧
      (∀ s q, selPrice [("Price", "19.99")] = some s → parsePyFloat s = some q →
        normalize_price (selPrice [("Price", "19.99")]) (some 25) = some q) ∧
      (∀ s, selPrice [("Price", "19.99")] = some s → parsePyFloat s = none →
        normalize_price (selPrice [("Price", "19.99")]) (some 25) = some 25) ∧
      (selPrice [("Price", "19.99")] = none →
        normalize_price (selPrice [("Price", "19.99")]) (some 25) = some 25)) ∧
    (normalize_price (selPrice [("Price", "19.99")]) (some 25)).elim "" formatF2 = "19.99" ∧
    (normalize_price (selPrice ([] : Seed)) (some 25)).elim "" formatF2 = "25.00" ∧
    (normalize_price (selPrice ([] : Seed)) none).elim "" formatF2 = "" :=
  ⟨c5_start_price_resolution ["*StartPrice"] [("Price", "19.99")] "" "" (some 25) "" "" [] []
      (by decide) (by decide),
    by decide, by decide, by decide⟩

/-- C7: structured extraction is a total function of the (abstracted) parsed
page — the embedding has no failing path, mirroring the source's fallback
chains in which every absent structure resolves to a default — and on a
document with no extractable data (every metadata block malformed, every
landmark absent) it returns the `ScrapeResult` whose fields are exactly the
dataclass defaults: empty title, description, category and condition, empty
image sequence, empty specifics mapping, absent price. -/
theorem c7_extraction_total_defaults (doc : HtmlDoc)
    (hb : ∀ b ∈ doc.jsonLdBlocks, b = none)
    (ht : ∀ s ∈ doc.titleCandidates, s = "")
    (hcl : doc.conditionLandmark = "")
    (hdc : ∀ o ∈ doc.descCandidates, o = none)
    (hsp : doc.specificsPairs = []) :
    scrape_ebay_listing doc = ({} : ScrapeResult) := by
  unfold scrape_ebay_listing
  rw [parse_json_ld_all_none _ hb, hcl, hsp]
  simp [extract_text, find?_empty_none _ ht, findSome?_all_none _ hdc, alookup, jget,
    categoryFromLd, collectImages, rawImages, imgsFromKey, dedupFirst, dedupSeen,
    buildSpecifics]

/-- C7 (witness): a document whose only metadata block is malformed and
whose landmarks are all absent extracts to the all-default record. -/
theorem c7_extraction_total_defaults_witness :
    scrape_ebay_listing
        { jsonLdBlocks := [none], titleCandidates := ["", ""], conditionLandmark := "",
          descCandidates := [none], specificsPairs := [] } =
      ({} : ScrapeResult) :=
  c7_extraction_total_defaults _ (by simp) (by simp) rfl (by simp) rfl

/-- Fallback of the rewriter on a failed call: with no successful response
the original text comes back for both call kinds. -/
theorem openai_optimize_response_none (env : RewriteEnv) (text : String) (b : Bool)
    (h3 : env.response = none) : openai_optimize env text b = text := by
  unfold openai_optimize
  by_cases hl : env.hasLib = false
  · rw [if_pos hl]
  · rw [if_neg hl]
    by_cases hk : env.apiKey = ""
    · rw [if_pos hk]
    · rw [if_neg hk, h3]

/-- C8: the rewriter returns the original text unchanged whenever the
client library is unavailable, no API key is configured, or the service call
fails; when it succeeds on a title the result is the stripped content
truncated to at most 80 characters; and on a failed call the driver's title
(toggle enabled or not) equals the original scraped title. -/
theorem c8_rewrite_fallback_and_truncation (env : RewriteEnv) (text : String)
    (seed : Seed) (flag : Bool) (title : String) :
    ((env.hasLib = false ∨ env.apiKey = "" ∨ env.response = none) →
      ∀ b, openai_optimize env text b = text) ∧
    (∀ content, env.hasLib = true → env.apiKey ≠ "" → env.response = some content →
      openai_optimize env text true = pySlice (pyStrip content) 80 ∧
        (openai_optimize env text true).length ≤ 80) ∧
    (env.response = none → resolveOptTitle seed flag env title = title) := by
  refine ⟨?_, ?_, ?_⟩
  · rintro (h1 | h2 | h3) b
    · unfold openai_optimize
      rw [if_pos h1]
    · unfold openai_optimize
      by_cases hl : env.hasLib = false
      · rw [if_pos hl]
      · rw [if_neg hl, if_pos h2]
    · exact openai_optimize_response_none env text b h3
  · intro content h1 h2 h3
    have hval : openai_optimize env text true = pySlice (pyStrip content) 80 := by
      unfold openai_optimize
      rw [if_neg (by rw [h1]; exact fun he => Bool.noConfusion he), if_neg h2, h3]
      rfl
    refine ⟨hval, ?_⟩
    rw [hval]
    show ((pyStrip content).data.take 80).length ≤ 80
    rw [List.length_take]
    exact min_le_left _ _
  · intro h3
    unfold resolveOptTitle
    split
    · exact openai_optimize_response_none env title true h3
    · rfl

/-- C8 (witness): a failed call leaves `"abc"` unchanged and leaves the
driver's title `"ttl"` unchanged with the toggle on; a successful call with
a 100-character response is truncated to 80. -/
theorem c8_rewrite_fallback_and_truncation_witness :
    (openai_optimize { hasLib := true, apiKey := "k", response := none } "abc" true = "abc") ∧
    (resolveOptTitle [] true { hasLib := true, apiKey := "k", response := none } "ttl" =
      "ttl") ∧
    (openai_optimize
        { hasLib := true, apiKey := "k",
          response := some (String.mk (List.replicate 100 'a')) } "abc" true).length ≤ 80 := by
  have h1 := c8_rewrite_fallback_and_truncation
    { hasLib := true, apiKey := "k", response := none } "abc" [] true "ttl"
  have h2 := c8_rewrite_fallback_and_truncation
    { hasLib := true, apiKey := "k", response := some (String.mk (List.replicate 100 'a')) }
    "abc" [] true "ttl"
  exact ⟨h1.1 (Or.inr (Or.inr rfl)) true, h1.2.2 rfl,
    (h2.2.1 (String.mk (List.replicate 100 'a')) rfl (by decide) rfl).2⟩

/-- C9: when the structured-metadata image data lists the same URL more than
once, the extracted image sequence contains that URL exactly once; the
sequence is a duplicate-free subsequence of the collected raw values (so
first-seen order is preserved and each survivor sits at its first
occurrence: the entries before the URL are exactly the de-duplicated values
first seen before it), and it retains only values passing the source's
absolute-URL check (`startswith("http")`). -/
theorem c9_image_dedup_idempotent (product : List (String × Json)) (u : String)
    (hdup : 2 ≤ (rawImages product).count u) :
    (collectImages product).count u = 1 ∧
    List.Sublist (collectImages product) (rawImages product) ∧
    (collectImages product).Nodup ∧
    (∀ v ∈ collectImages product, pyStartsWith v "http" = true) ∧
    (collectImages product).takeWhile (fun v => v != u) =
      dedupFirst ((rawImages product).takeWhile (fun v => v != u)) := by
  have hmemraw : u ∈ rawImages product := List.count_pos_iff.mp (by omega)
  have hmem : u ∈ collectImages product := by
    unfold collectImages dedupFirst
    rw [dedupSeen_mem]
    exact ⟨hmemraw, by simp⟩
  have hnd : (collectImages product).Nodup := dedupSeen_nodup _ []
  refine ⟨List.count_eq_one_of_mem hnd hmem, dedupSeen_sublist _ [], hnd, ?_, ?_⟩
  · intro v hv
    have hvraw : v ∈ rawImages product := by
      have := (dedupSeen_mem (rawImages product) [] v).mp hv
      exact this.1
    exact rawImages_http product v hvraw
  · unfold collectImages dedupFirst
    rw [dedupSeen_takeWhile _ _ [] (by simp)]

/-- C9 (witness): metadata listing `"http://a"` twice (with a non-URL value
interleaved) extracts it exactly once, first. -/
theorem c9_image_dedup_idempotent_witness :
    (collectImages [("image",
        Json.arr [Json.str "http://a", Json.str "x", Json.str "http://a",
          Json.str "http://b"])]).count "http://a" = 1 ∧
    List.Sublist
      (collectImages [("image",
        Json.arr [Json.str "http://a", Json.str "x", Json.str "http://a",
          Json.str "http://b"])])
      (rawImages [("image",
        Json.arr [Json.str "http://a", Json.str "x", Json.str "http://a",
          Json.str "http://b"])]) ∧
    (collectImages [("image",
        Json.arr [Json.str "http://a", Json.str "x", Json.str "http://a",
          Json.str "http://b"])]).Nodup ∧
    (∀ v ∈ collectImages [("image",
        Json.arr [Json.str "http://a", Json.str "x", Json.str "http://a",
          Json.str "http://b"])], pyStartsWith v "http" = true) ∧
    (collectImages [("image",
        Json.arr [Json.str "http://a", Json.str "x", Json.str "http://a",
          Json.str "http://b"])]).takeWhile (fun v => v != "http://a") =
      dedupFirst ((rawImages [("image",
        Json.arr [Json.str "http://a", Json.str "x", Json.str "http://a",
          Json.str "http://b"])]).takeWhile (fun v => v != "http://a")) :=
  c9_image_dedup_idempotent
    [("image",
      Json.arr [Json.str "http://a", Json.str "x", Json.str "http://a", Json.str "http://b"])]
    "http://a" (by decide)

/-- C10 (counterexample): the claim says that whenever both the plain column
and its `Override` counterpart are non-empty, the plain value is used; but
`Condition` is stripped before the falsy-or (src line 305), so the non-empty
whitespace seed value `" "` loses to `ConditionOverride = "New"`: the
resolved condition is `"New"` and the output holds id `"1000"` (the plain
value `" "` is unmapped and would give `"3000"`). -/
theorem c10_blank_plain_column_cex :
    alookup [("Condition", " "), ("ConditionOverride", "New")] "Condition" = some " " ∧
    (" " : String) ≠ "" ∧
    alookup [("Condition", " "), ("ConditionOverride", "New")] "ConditionOverride" =
      some "New" ∧
    cond_override [("Condition", " "), ("ConditionOverride", "New")] = "New" ∧
    ("New" : String) ≠ " " ∧
    build_output_row ["*ConditionID"] [("Condition", " "), ("ConditionOverride", "New")]
      "" "" none "" "" [] [] = some ["1000"] ∧
    ("1000" : String) ≠ "3000" := by decide

/-- C10 (amended): the plain-named column takes precedence over its
`Override` counterpart whenever the plain value is truthy under the test the
source applies to it — non-empty after whitespace-stripping for `Condition`
and `ShippingType`, plainly non-empty for `Price` and `Quantity` (which are
not stripped); a whitespace-only plain `Condition`/`ShippingType` value
falls through to the Override column. -/
theorem c10_plain_over_override (seed : Seed) :
    (pyStrip (sgetD seed "Condition" "") ≠ "" →
      cond_override seed = pyStrip (sgetD seed "Condition" "")) ∧
    (∀ p, sget seed "Price" = some p → p ≠ "" → selPrice seed = some p) ∧
    (∀ q, sget seed "Quantity" = some q → q ≠ "" → qtyResolved seed = q) ∧
    (pyStrip (sgetD seed "ShippingType" "") ≠ "" →
      shipTypeResolved seed = pyStrip (sgetD seed "ShippingType" "")) := by
  refine ⟨?_, ?_, ?_, ?_⟩
  · intro h
    unfold cond_override pyOrS
    rw [if_neg h]
  · intro p hp hne
    unfold selPrice pyOrOpt
    rw [hp]
    show (if p = "" then sget seed "PriceOverride" else some p) = some p
    rw [if_neg hne]
  · intro q hq hne
    unfold qtyResolved pyOrOptD pyOrOpt
    rw [hq]
    show (match if q = "" then sget seed "QuantityOverride" else some q with
          | some s => if s = "" then toString DEFAULTS_Quantity else s
          | none => toString DEFAULTS_Quantity) = q
    rw [if_neg hne]
    show (if q = "" then toString DEFAULTS_Quantity else q) = q
    rw [if_neg hne]
  · intro h
    unfold shipTypeResolved pyOrS
    rw [if_neg h, if_neg h]

/-- C10 (witness for the amended theorem): every plain column beats its
populated Override counterpart when the plain value is non-blank. -/
theorem c10_plain_over_override_witness :
    cond_override
        [("Condition", "New "), ("ConditionOverride", "Used"), ("Price", "5"),
          ("PriceOverride", "6"), ("Quantity", "2"), ("QuantityOverride", "3"),
          ("ShippingType", "Calculated"), ("ShippingTypeOverride", "Flat")] = "New" ∧
    selPrice
        [("Condition", "New "), ("ConditionOverride", "Used"), ("Price", "5"),
          ("PriceOverride", "6"), ("Quantity", "2"), ("QuantityOverride", "3"),
          ("ShippingType", "Calculated"), ("ShippingTypeOverride", "Flat")] = some "5" ∧
    qtyResolved
        [("Condition", "New "), ("ConditionOverride", "Used"), ("Price", "5"),
          ("PriceOverride", "6"), ("Quantity", "2"), ("QuantityOverride", "3"),
          ("ShippingType", "Calculated"), ("ShippingTypeOverride", "Flat")] = "2" ∧
    shipTypeResolved
        [("Condition", "New "), ("ConditionOverride", "Used"), ("Price", "5"),
          ("PriceOverride", "6"), ("Quantity", "2"), ("QuantityOverride", "3"),
          ("ShippingType", "Calculated"), ("ShippingTypeOverride", "Flat")] =
      "Calculated" := by
  have h := c10_plain_over_override
    [("Condition", "New "), ("ConditionOverride", "Used"), ("Price", "5"),
      ("PriceOverride", "6"), ("Quantity", "2"), ("QuantityOverride", "3"),
      ("ShippingType", "Calculated"), ("ShippingTypeOverride", "Flat")]
  refine ⟨?_, h.2.1 "5" (by decide) (by decide), h.2.2.1 "2" (by decide) (by decide), ?_⟩
  · rw [h.1 (by decide)]
    decide
  · rw [h.2.2.2 (by decide)]
    decide
